import Mathlib

/-!
Shallow embedding of the PiggyCell game bot (`bot1.py` and `bot/bot1.py`).

The repository contains two near-identical scripts.  They share the orchestration
logic (`play_single_game`, `play_game`, `play_all_accounts`, `load_accounts`,
`load_config`, `get_game_id`, `get_game_code`, `check_game_code`,
`record_game_score`) and differ only in a handful of literals (default scores,
default rounds, the inter-account sleep bounds) and in the body of
`get_random_user_agent`.  We model the shared logic once, parameterized by a
`Variant` record holding the literals of each file, and model the two
`get_random_user_agent` bodies separately.

External effects (wall-clock time, `uuid4`, `random.randint`, `random.choice`,
HTTP responses) are passed in explicitly; network calls and sleeps are recorded
as events in a trace.
-/

namespace PiggyBot

/-- Per-file literals.  `bot1.py` and `bot/bot1.py` are identical up to these
constants (plus `get_random_user_agent`, modelled separately below). -/
structure Variant where
  /-- default of `config.get('game_settings',{}).get('min_score', _)` -/
  min_score : Int
  /-- default of `.get('max_score', _)` -/
  max_score : Int
  /-- default of `.get('games_per_session', _)` -/
  games_per_session : Nat
  /-- default of `.get('game_delay', _)` -/
  game_delay : Nat
  /-- default of `.get('session_interval', _)` -/
  session_interval : Nat
  /-- first argument of `random.uniform(_, _)` in `play_all_accounts` -/
  sleep_lo : Nat
  /-- second argument of `random.uniform(_, _)` in `play_all_accounts` -/
  sleep_hi : Nat
  deriving DecidableEq, Repr

/-- Literals of `src/bot1.py`: defaults 55/65/2/2/3, sleep `uniform(1, 2)`. -/
def bot1Variant : Variant :=
  { min_score := 55, max_score := 65, games_per_session := 2, game_delay := 2,
    session_interval := 3, sleep_lo := 1, sleep_hi := 2 }

/-- Literals of `src/bot/bot1.py`: defaults 65/100/3/1/5, sleep `uniform(1, 3)`. -/
def botDirVariant : Variant :=
  { min_score := 65, max_score := 100, games_per_session := 3, game_delay := 1,
    session_interval := 5, sleep_lo := 1, sleep_hi := 3 }

/-- `game_settings` object of the config JSON; each key may be absent. -/
structure GameSettings where
  min_score : Option Int := none
  max_score : Option Int := none
  games_per_session : Option Nat := none
  game_delay : Option Nat := none
  session_interval : Option Nat := none
  deriving DecidableEq, Repr

/-- Parsed config JSON (`config/config.json`). -/
structure Config where
  log_level : Option String := none
  game_settings : Option GameSettings := none
  deriving DecidableEq, Repr

/-- `self.config.get('game_settings', {})` -/
def Config.gs (c : Config) : GameSettings := c.game_settings.getD {}

/-- Effective `min_score`: `config.get('game_settings',{}).get('min_score', default)`. -/
def effMinScore (c : Config) (v : Variant) : Int := c.gs.min_score.getD v.min_score

/-- Effective `max_score`. -/
def effMaxScore (c : Config) (v : Variant) : Int := c.gs.max_score.getD v.max_score

/-- Effective `games_per_session`. -/
def effGames (c : Config) (v : Variant) : Nat := c.gs.games_per_session.getD v.games_per_session

/-- Effective `game_delay`. -/
def effDelay (c : Config) (v : Variant) : Nat := c.gs.game_delay.getD v.game_delay

/-- An account as built by `load_accounts`. -/
structure Account where
  name : String
  session_token : String
  cookies : String
  description : String
  deriving DecidableEq, Repr

/-! ### Game-code generation (`get_game_id`, `get_game_code`)

`get_game_id` computes `f"{int(time.time()*1000)}_{str(uuid.uuid4()).replace('-','')[:8]}"`.
The millisecond timestamp is a nonnegative integer rendered in decimal by the
f-string; the uuid part is the first 8 characters of the 32 lowercase-hex
characters of a uuid4.  We model the timestamp as a `Nat` input and the uuid
randomness as a `Nat` input supplying the hex nibbles. -/

/-- Decimal digit character, as produced by Python string formatting. -/
def decChar (d : Nat) : Char := Char.ofNat (48 + d)

/-- Accumulator loop of decimal rendering (digits of `n`, most significant first,
prepended to `acc`). -/
def natToDecAux : Nat → List Char → List Char
  | 0, acc => acc
  | n + 1, acc => natToDecAux ((n + 1) / 10) (decChar ((n + 1) % 10) :: acc)
decreasing_by exact Nat.div_lt_self (Nat.succ_pos n) (by omega)

/-- Decimal rendering of a nonnegative integer, as in Python `f"{n}"`. -/
def natToDecimal (n : Nat) : String :=
  if n = 0 then "0" else ⟨natToDecAux n []⟩

/-- Lowercase hex digit character, as in `str(uuid.uuid4())`. -/
def hexChar (d : Nat) : Char :=
  if d < 10 then Char.ofNat (48 + d) else Char.ofNat (87 + d)

/-- `str(uuid.uuid4()).replace('-','')[:8]`: 8 lowercase hex characters drawn
from the uuid's randomness `r` (nibble `i` is `r / 16^i % 16`). -/
def uuidHex8 (r : Nat) : String :=
  ⟨(List.range 8).map fun i => hexChar (r / 16 ^ i % 16)⟩

/-- `get_game_id`: builds `f"{timestamp}_{random_part}"`.  The `try` body is pure
local computation, so the `except` branch returning `None` is unreachable; the
function always returns a code. -/
def get_game_id (ts r : Nat) : Option String :=
  some (natToDecimal ts ++ "_" ++ uuidHex8 r)

/-- `get_game_code`: returns `get_game_id`'s result, or `None` when that is
falsy (`if not game_id`). -/
def get_game_code (ts r : Nat) : Option String :=
  match get_game_id ts r with
  | none => none
  | some gameId => if gameId.isEmpty then none else some gameId

/-- Spec-side predicate: lowercase hexadecimal character. -/
def isHexLower (c : Char) : Bool := c.isDigit || ('a' ≤ c && c ≤ 'f')

theorem decChar_isDigit {d : Nat} (h : d < 10) : (decChar d).isDigit = true := by
  interval_cases d <;> decide

theorem natToDecAux_digits (n : Nat) :
    ∀ acc, (∀ c ∈ acc, c.isDigit = true) → ∀ c ∈ natToDecAux n acc, c.isDigit = true := by
  induction n using Nat.strong_induction_on with
  | _ n ih =>
    intro acc hacc c hc
    match n with
    | 0 => rw [natToDecAux] at hc; exact hacc c hc
    | m + 1 =>
      rw [natToDecAux] at hc
      refine ih ((m + 1) / 10) (Nat.div_lt_self (Nat.succ_pos m) (by omega)) _ ?_ c hc
      intro c' hc'
      rcases List.mem_cons.mp hc' with h | h
      · subst h; exact decChar_isDigit (Nat.mod_lt _ (by omega))
      · exact hacc c' h

theorem natToDecimal_digits (n : Nat) :
    ∀ c ∈ (natToDecimal n).toList, c.isDigit = true := by
  unfold natToDecimal
  split
  · intro c hc; simp [String.toList] at hc; subst hc; decide
  · exact natToDecAux_digits n [] (by simp)

theorem natToDecAux_ne_nil (n : Nat) (hn : n ≠ 0) (acc : List Char) :
    natToDecAux n acc ≠ [] := by
  match n with
  | m + 1 =>
    rw [natToDecAux]
    have h10 : (m + 1) / 10 < m + 1 := Nat.div_lt_self (Nat.succ_pos m) (by omega)
    by_cases hz : (m + 1) / 10 = 0
    · rw [hz, natToDecAux]; simp
    · exact natToDecAux_ne_nil ((m + 1) / 10) hz _
decreasing_by exact h10

theorem natToDecimal_ne_empty (n : Nat) : natToDecimal n ≠ "" := by
  unfold natToDecimal
  split
  · decide
  · intro h
    have : (natToDecAux n []).length = 0 := by
      have := congrArg String.length h
      simpa [String.length] using this
    exact natToDecAux_ne_nil n (by assumption) [] (List.length_eq_zero.mp this)

theorem hexChar_isHexLower {d : Nat} (h : d < 16) : isHexLower (hexChar d) = true := by
  interval_cases d <;> decide

theorem uuidHex8_length (r : Nat) : (uuidHex8 r).length = 8 := by
  simp [uuidHex8, String.length]

theorem uuidHex8_hex (r : Nat) : ∀ c ∈ (uuidHex8 r).toList, isHexLower c = true := by
  intro c hc
  simp only [uuidHex8, String.toList, List.mem_map, List.mem_range] at hc
  obtain ⟨i, _, rfl⟩ := hc
  exact hexChar_isHexLower (Nat.mod_lt _ (by omega))

theorem get_game_id_ne_empty (ts r : Nat) :
    ¬ (natToDecimal ts ++ "_" ++ uuidHex8 r).isEmpty = true := by
  intro h
  rw [String.isEmpty_iff] at h
  have hlen := congrArg String.length h
  rw [String.length_append, String.length_append] at hlen
  have h2 : ("_" : String).length = 1 := rfl
  have h0 : ("" : String).length = 0 := rfl
  omega

/-! ### Network calls and the per-round/per-account loops

`check_game_code` and `record_game_score` build headers, cookies, a random
proxy and POST a JSON body; the only thing that flows back into control flow is
whether the response status is 200 (`True`) — any other status, and any raised
exception (timeout, connection error), yields `False`.  We model the outcome of
each POST as an `HttpResult` supplied by the environment. -/

/-- Outcome of one HTTP POST: a status code, or a raised exception. -/
inductive HttpResult where
  | status (code : Nat)
  | exn
  deriving DecidableEq, Repr

/-- `response.status_code == 200`, with exceptions caught and turned into failure. -/
def httpOk : HttpResult → Bool
  | .status c => c == 200
  | .exn => false

/-- `check_game_code`: returns `True` iff the check-endpoint POST came back 200;
non-200 statuses and exceptions both return `False`. -/
def check_game_code (resp : HttpResult) : Bool := httpOk resp

/-- `record_game_score`: returns `True` iff the record-endpoint POST came back
200; non-200 statuses and exceptions both return `False`. -/
def record_game_score (resp : HttpResult) : Bool := httpOk resp

/-- `random.randint(lo, hi)`: uniform integer in `[lo, hi]`; raises `ValueError`
(modelled as `none`) when `hi < lo`.  `r` supplies the randomness. -/
def randint (lo hi : Int) (r : Nat) : Option Int :=
  if hi < lo then none else some (lo + (r % (hi - lo + 1).toNat : Nat))

/-- External inputs consumed by one round of `play_single_game`. -/
structure RoundEnv where
  /-- `int(time.time() * 1000)` at `get_game_id` -/
  ts : Nat
  /-- randomness of `uuid.uuid4()` -/
  uuidRand : Nat
  /-- outcome of the check-endpoint POST -/
  checkResp : HttpResult
  /-- outcome of the record-endpoint POST -/
  recordResp : HttpResult
  /-- randomness of `random.randint` -/
  scoreRand : Nat
  deriving DecidableEq, Repr

/-- Observable steps of a run, in order. -/
inductive Event where
  /-- `play_single_game` entered for round `round` (the start-of-round log line) -/
  | roundStart (round : Nat)
  /-- POST to the check-endpoint with this game code -/
  | checkCall (gameCode : String)
  /-- POST to the record-endpoint with this score; `ok` is whether it returned 200 -/
  | recordCall (score : Int) (ok : Bool)
  /-- `time.sleep(game_delay)` between rounds -/
  | sleep (seconds : Nat)
  /-- `time.sleep(random.uniform(lo, hi))` between accounts -/
  | sleepUniform (lo hi : Nat)
  /-- warning `没有找到账户信息` when the account list is empty -/
  | warnNoAccounts
  deriving DecidableEq, Repr

/-- `play_single_game(account, game_round)`: generate a code, check it, draw a
score in the configured range and record it.  Returns the success flag and the
trace of this round.  A `ValueError` from `randint` (when `min_score >
max_score`) is caught by the surrounding `except` and yields `False`. -/
def play_single_game (cfg : Config) (v : Variant) (env : RoundEnv) (game_round : Nat) :
    Bool × List Event :=
  match get_game_code env.ts env.uuidRand with
  | none => (false, [.roundStart game_round])
  | some gameCode =>
    if check_game_code env.checkResp then
      match randint (effMinScore cfg v) (effMaxScore cfg v) env.scoreRand with
      | none => (false, [.roundStart game_round, .checkCall gameCode])
      | some score =>
        let ok := record_game_score env.recordResp
        (ok, [.roundStart game_round, .checkCall gameCode, .recordCall score ok])
    else (false, [.roundStart game_round, .checkCall gameCode])

/-- Result of `play_game` for one account. -/
structure PlayGameResult where
  /-- the returned boolean, `success_count > 0` -/
  success : Bool
  /-- the final `success_count` -/
  success_count : Nat
  /-- the trace of all rounds -/
  trace : List Event
  deriving DecidableEq, Repr

/-- The `for i in range(1, games_count + 1)` loop of `play_game`: run round `i`,
break on `False`, otherwise count the success and sleep `game_delay` unless `i`
is the last round (`i < games_count`). -/
def play_rounds (cfg : Config) (v : Variant) (envs : Nat → RoundEnv) (n : Nat) :
    List Nat → Nat × List Event
  | [] => (0, [])
  | i :: rest =>
    let r := play_single_game cfg v (envs i) i
    if r.1 then
      let evs := if i < n then r.2 ++ [.sleep (effDelay cfg v)] else r.2
      let rest' := play_rounds cfg v envs n rest
      (rest'.1 + 1, evs ++ rest'.2)
    else (0, r.2)

/-- `play_game(account)`: run `games_per_session` rounds, breaking at the first
failed round; the account is reported successful iff `success_count > 0`. -/
def play_game (cfg : Config) (v : Variant) (envs : Nat → RoundEnv) : PlayGameResult :=
  let n := effGames cfg v
  let r := play_rounds cfg v envs n (List.range' 1 n)
  ⟨decide (0 < r.1), r.1, r.2⟩

/-- The account loop of `play_all_accounts`: `play_game` for each account, then
`time.sleep(random.uniform(sleep_lo, sleep_hi))` — the sleep is unconditional,
so it also follows the last account.  `envs k i` is the environment of round `i`
of the `k`-th account. -/
def play_accounts_loop (cfg : Config) (v : Variant) (envs : Nat → Nat → RoundEnv) :
    List Account → Nat → List Event
  | [], _ => []
  | _ :: rest, k =>
    (play_game cfg v (envs k)).trace ++ [.sleepUniform v.sleep_lo v.sleep_hi] ++
      play_accounts_loop cfg v envs rest (k + 1)

/-- `play_all_accounts`: with no accounts, log the warning and return; otherwise
run the account loop. -/
def play_all_accounts (cfg : Config) (v : Variant) (accounts : List Account)
    (envs : Nat → Nat → RoundEnv) : List Event :=
  if accounts.isEmpty then [.warnNoAccounts]
  else play_accounts_loop cfg v envs accounts 0

/-! ### `load_accounts` -/

/-- One JSON object of the accounts file's `accounts` array; every key may be
absent. -/
structure RawAccount where
  name : Option String := none
  session_token : Option String := none
  cookies : Option String := none
  description : Option String := none
  enabled : Option Bool := none
  deriving DecidableEq, Repr

/-- Body of the `for account in accounts_data.get('accounts', [])` loop for one
object: skipped when `account.get('enabled', True)` is falsy, otherwise
`account['name']` and `account['session_token']` may raise `KeyError`
(modelled as `Except.error`), and `cookies`/`description` default to `''`. -/
def parse_account (a : RawAccount) : Except Unit (Option Account) :=
  if a.enabled.getD true then
    match a.name with
    | none => .error ()
    | some n =>
      match a.session_token with
      | none => .error ()
      | some t =>
        .ok (some { name := n, session_token := t,
                    cookies := a.cookies.getD "", description := a.description.getD "" })
  else .ok none

/-- The whole accounts loop: accounts accumulate in order; the first `KeyError`
aborts the loop (and is caught at the file level). -/
def parse_accounts : List RawAccount → Except Unit (List Account)
  | [] => .ok []
  | a :: rest => do
    let x ← parse_account a
    let xs ← parse_accounts rest
    pure (match x with | some acc => acc :: xs | none => xs)

/-- State of the accounts file as seen by `load_accounts`. -/
inductive AccountsFileRead where
  /-- `FileNotFoundError` -/
  | missing
  /-- `json.JSONDecodeError` -/
  | malformed
  /-- JSON parsed; `accounts_data.get('accounts', [])` yields this array
  (`none` when the `accounts` key is absent) -/
  | parsed (accountsField : Option (List RawAccount))
  deriving DecidableEq, Repr

/-- `load_accounts`: a missing file prints an error and returns `[]`;
`json.JSONDecodeError` and `KeyError` are caught together, print a warning and
return `[]`; otherwise the parsed enabled accounts are returned. -/
def load_accounts : AccountsFileRead → List Account
  | .missing => []
  | .malformed => []
  | .parsed f =>
    match parse_accounts (f.getD []) with
    | .ok l => l
    | .error _ => []

/-! ### `load_config` at startup -/

/-- State of the config file as seen by `load_config`. -/
inductive ConfigFileRead where
  /-- `FileNotFoundError` -/
  | missing
  /-- `json.JSONDecodeError` -/
  | malformed
  /-- JSON parsed successfully -/
  | ok (c : Config)
  deriving DecidableEq, Repr

/-- How a call that may terminate the process ends. -/
inductive PyOutcome (α : Type) where
  /-- normal return -/
  | ok (a : α)
  /-- `sys.exit(code)` -/
  | sysExit (code : Nat)
  /-- an exception that nothing catches, naming the exception type -/
  | uncaught (exnType : String)
  deriving DecidableEq, Repr

/-- `load_config`: on `FileNotFoundError` or `json.JSONDecodeError` the handler
runs `self.logger.error(...)` and then `sys.exit(1)`.  `loggerInitialized`
records whether `setup_logging` has already created the `logger` attribute:
when it has not, the `self.logger` lookup itself raises `AttributeError` inside
the handler and `sys.exit(1)` is never reached. -/
def load_config (loggerInitialized : Bool) : ConfigFileRead → PyOutcome Config
  | .ok c => .ok c
  | .missing =>
    if loggerInitialized then .sysExit 1 else .uncaught "AttributeError"
  | .malformed =>
    if loggerInitialized then .sysExit 1 else .uncaught "AttributeError"

/-- `__init__` runs `self.config = self.load_config()` before
`self.setup_logging()`, so at that point the `logger` attribute does not exist
yet. -/
def init_load_config (f : ConfigFileRead) : PyOutcome Config :=
  load_config false f

/-! ### `get_random_user_agent` (the two files differ here)

`src/bot1.py` reads `user_agents.txt` on first use (stripping lines and
dropping blank ones), picks uniformly from that pool when it is nonempty, and
otherwise returns `self.user_agent.random` from the external `fake_useragent`
library.  `src/bot/bot1.py` never reads `user_agents.txt`: it returns
`self.user_agent.random`, and only when that raises does it pick from a
hardcoded list.  The library value is an input (`fakeUA`); `choice` supplies
`random.choice`'s randomness. -/

/-- State of `user_agents.txt` as seen by `bot1.py`. -/
inductive UAFile where
  /-- `os.path.exists` is false -/
  | absent
  /-- the file's lines -/
  | present (lines : List String)
  deriving DecidableEq, Repr

/-- `random.choice(l)` on a nonempty list. -/
def listChoice (l : List String) (r : Nat) : String := l.getD (r % l.length) ""

/-- Python `str.strip()`: remove leading and trailing whitespace. -/
def pyStrip (s : String) : String :=
  ⟨((s.toList.dropWhile Char.isWhitespace).reverse.dropWhile Char.isWhitespace).reverse⟩

/-- `get_random_user_agent` of `src/bot1.py`. -/
def bot1_get_random_user_agent (uaFile : UAFile) (choice : Nat) (fakeUA : String) : String :=
  match uaFile with
  | .absent => fakeUA
  | .present lines =>
    let pool := (lines.map pyStrip).filter (fun s => !s.isEmpty)
    if pool.isEmpty then fakeUA else listChoice pool choice

/-- The hardcoded fallback list of `src/bot/bot1.py` (note: the source omits
the comma after the `Firefox/102.0` entry, so Python concatenates it with the
following literal into a single element). -/
def builtin_user_agents : List String :=
  [ "Mozilla/5.0 (Macintosh; Intel Mac OS X 10_15_7) AppleWebKit/537.36 (KHTML, like Gecko) Chrome/141.0.0.0 Safari/537.36",
    "Mozilla/5.0 (Windows NT 10.0; Win64; x64) AppleWebKit/537.36 (KHTML, like Gecko) Chrome/124.0.0.0 Safari/537.36",
    "Mozilla/5.0 (Windows NT 10.0; Win64; x64; rv:115.0) Gecko/20100101 Firefox/115.0",
    "Mozilla/5.0 (Windows NT 6.3; Win64; x64) AppleWebKit/537.36 (KHTML, like Gecko) Chrome/121.0.6167.86 Safari/537.36",
    "Mozilla/5.0 (Windows NT 6.1; WOW64; Trident/7.0; rv:11.0) like Gecko",
    "Mozilla/5.0 (Windows NT 10.0; WOW64) AppleWebKit/537.36 (KHTML, like Gecko) Chrome/120.0.6099.110 Safari/537.36",
    "Mozilla/5.0 (Windows NT 10.0; Win64; x64) AppleWebKit/537.36 (KHTML, like Gecko) Edge/119.0.2151.44 Safari/537.36",
    "Mozilla/5.0 (Windows NT 10.0; Win64; x64; rv:109.0) Gecko/20100101 Firefox/109.0",
    "Mozilla/5.0 (Windows NT 6.1; Win64; x64) AppleWebKit/537.36 (KHTML, like Gecko) Chrome/118.0.0.0 Safari/537.36",
    "Mozilla/5.0 (Windows NT 10.0; Win64; x64) AppleWebKit/605.1.15 (KHTML, like Gecko) Version/17.0 Safari/605.1.15",
    "Mozilla/5.0 (Windows NT 10.0; Win64; x64) AppleWebKit/537.36 (KHTML, like Gecko) Chrome/125.0.6422.76 YaBrowser/24.1.0.0 Safari/537.36",
    "Mozilla/5.0 (Macintosh; Intel Mac OS X 10_15_7) AppleWebKit/537.36 (KHTML, like Gecko) Chrome/124.0.0.0 Safari/537.36",
    "Mozilla/5.0 (Macintosh; Intel Mac OS X 12_6_3; rv:115.0) Gecko/20100101 Firefox/115.0",
    "Mozilla/5.0 (Macintosh; Intel Mac OS X 11_7_10) AppleWebKit/605.1.15 (KHTML, like Gecko) Version/17.1 Safari/605.1.15",
    "Mozilla/5.0 (Macintosh; Intel Mac OS X 10_14_6) AppleWebKit/537.36 (KHTML, like Gecko) Chrome/122.0.6170.45 Safari/537.36",
    "Mozilla/5.0 (Macintosh; Intel Mac OS X 13_4_1) AppleWebKit/605.1.15 (KHTML, like Gecko) Version/17.0 Safari/605.1.15",
    "Mozilla/5.0 (Macintosh; Intel Mac OS X 10_13_6; rv:110.0) Gecko/20100101 Firefox/110.0",
    "Mozilla/5.0 (Macintosh; Intel Mac OS X 12_1) AppleWebKit/537.36 (KHTML, like Gecko) Chrome/120.0.6099.129 Safari/537.36",
    "Mozilla/5.0 (Macintosh; Intel Mac OS X 10_14_5) AppleWebKit/537.36 (KHTML, like Gecko) Chrome/118.0.5993.169 Safari/537.36",
    "Mozilla/5.0 (Macintosh; Intel Mac OS X 13_2) AppleWebKit/537.36 (KHTML, like Gecko) Chrome/125.0.6422.43 Safari/537.36",
    "Mozilla/5.0 (Macintosh; Intel Mac OS X 11_2_3; rv:102.0) Gecko/20100101 Firefox/102.0" ++
      "Mozilla/5.0 (Macintosh; Intel Mac OS X 10_15_7) AppleWebKit/605.1.15 (KHTML, like Gecko) Version/16.1 Safari/605.1.15",
    "Mozilla/5.0 (iPhone; CPU iPhone OS 16_2 like Mac OS X) AppleWebKit/605.1.15 (KHTML, like Gecko) Version/16.2 Mobile/15E148 Safari/604.1",
    "Mozilla/5.0 (Macintosh; Intel Mac OS X 12_3) AppleWebKit/605.1.15 (KHTML, like Gecko) Version/15.4 Safari/605.1.15",
    "Mozilla/5.0 (iPad; CPU OS 15_1 like Mac OS X) AppleWebKit/605.1.15 (KHTML, like Gecko) Version/15.1 Mobile/15E148 Safari/604.1",
    "Mozilla/5.0 (Macintosh; Intel Mac OS X 11_5_2) AppleWebKit/605.1.15 (KHTML, like Gecko) Version/14.1 Safari/605.1.15",
    "Mozilla/5.0 (iPhone; CPU iPhone OS 14_7 like Mac OS X) AppleWebKit/605.1.15 (KHTML, like Gecko) Version/14.7 Mobile/15E148 Safari/604.1",
    "Mozilla/5.0 (Macintosh; Intel Mac OS X 10_14_6) AppleWebKit/605.1.15 (KHTML, like Gecko) Version/13.1 Safari/605.1.15",
    "Mozilla/5.0 (iPad; CPU OS 14_5 like Mac OS X) AppleWebKit/605.1.15 (KHTML, like Gecko) Version/14.5 Mobile/15E148 Safari/604.1",
    "Mozilla/5.0 (Macintosh; Intel Mac OS X 10_13_6) AppleWebKit/605.1.15 (KHTML, like Gecko) Version/12.1 Safari/605.1.15",
    "Mozilla/5.0 (iPhone; CPU iPhone OS 13_6 like Mac OS X) AppleWebKit/605.1.15 (KHTML, like Gecko) Version/13.6 Mobile/15E148 Safari/604.1",
    "Mozilla/5.0 (Macintosh; Intel Mac OS X 10_12_6) AppleWebKit/605.1.15 (KHTML, like Gecko) Version/12.0 Safari/605.1.15",
    "Mozilla/5.0 (iPad; CPU OS 13_3 like Mac OS X) AppleWebKit/605.1.15 (KHTML, like Gecko) Version/13.3 Mobile/15E148 Safari/604.1",
    "Mozilla/5.0 (iPhone; CPU iPhone OS 12_4 like Mac OS X) AppleWebKit/605.1.15 (KHTML, like Gecko) Version/12.4 Mobile/15E148 Safari/604.1",
    "Mozilla/5.0 (Macintosh; Intel Mac OS X 13_0) AppleWebKit/605.1.15 (KHTML, like Gecko) Version/16.0 Safari/605.1.15",
    "Mozilla/5.0 (iPad; CPU OS 16_1 like Mac OS X) AppleWebKit/605.1.15 (KHTML, like Gecko) Version/16.1 Mobile/15E148 Safari/604.1",
    "Mozilla/5.0 (iPhone; CPU iPhone OS 15_5 like Mac OS X) AppleWebKit/605.1.15 (KHTML, like Gecko) Version/15.5 Mobile/15E148 Safari/604.1",
    "Mozilla/5.0 (Macintosh; Intel Mac OS X 12_6) AppleWebKit/605.1.15 (KHTML, like Gecko) Version/15.6 Safari/605.1.15",
    "Mozilla/5.0 (Macintosh; Intel Mac OS X 11_4) AppleWebKit/605.1.15 (KHTML, like Gecko) Version/14.0 Safari/605.1.15",
    "Mozilla/5.0 (iPhone; CPU iPhone OS 11_4 like Mac OS X) AppleWebKit/605.1.15 (KHTML, like Gecko) Version/11.4 Mobile/15E148 Safari/604.1",
    "Mozilla/5.0 (Macintosh; Intel Mac OS X 10_15_3) AppleWebKit/605.1.15 (KHTML, like Gecko) Version/13.0 Safari/605.1.15",
    "Mozilla/5.0 (iPad; CPU OS 12_5 like Mac OS X) AppleWebKit/605.1.15 (KHTML, like Gecko) Version/12.5 Mobile/15E148 Safari/604.1",
    "Mozilla/5.0 (iPhone; CPU iPhone OS 10_3_3 like Mac OS X) AppleWebKit/602.1.50 (KHTML, like Gecko) Version/10.0 Mobile/14G60 Safari/602.1",
    "Mozilla/5.0 (Macintosh; Intel Mac OS X 10_11_6) AppleWebKit/601.7.8 (KHTML, like Gecko) Version/11.1 Safari/601.7.8",
    "Mozilla/5.0 (iPad; CPU OS 11_4 like Mac OS X) AppleWebKit/604.5.6 (KHTML, like Gecko) Version/11.4 Mobile/15E148 Safari/604.1",
    "Mozilla/5.0 (Macintosh; Intel Mac OS X 10_10_5) AppleWebKit/600.8.9 (KHTML, like Gecko) Version/10.1 Safari/600.8.9",
    "Mozilla/5.0 (Macintosh; Intel Mac OS X 10_9_5) AppleWebKit/537.85.17 (KHTML, like Gecko) Version/9.1 Safari/537.85.17",
    "Mozilla/5.0 (iPhone; CPU iPhone OS 9_3_5 like Mac OS X) AppleWebKit/601.1.46 (KHTML, like Gecko) Version/9.3 Mobile/13G36 Safari/601.1",
    "Mozilla/5.0 (iPad; CPU OS 10_3_3 like Mac OS X) AppleWebKit/603.3.8 (KHTML, like Gecko) Version/10.3 Mobile/14G60 Safari/603.3.8",
    "Mozilla/5.0 (Macintosh; Intel Mac OS X 10_8_5) AppleWebKit/536.30.1 (KHTML, like Gecko) Version/8.0 Safari/536.30.1",
    "Mozilla/5.0 (Macintosh; Intel Mac OS X 10_7_5) AppleWebKit/534.57.2 (KHTML, like Gecko) Version/7.1 Safari/534.57.2" ]

/-- `get_random_user_agent` of `src/bot/bot1.py`.  `fakeUA` is `some ua` when
`self.user_agent.random` returns `ua`, `none` when it raises; `uaFile` is the
state of `user_agents.txt`, which this variant never consults. -/
def botDir_get_random_user_agent (uaFile : UAFile) (fakeUA : Option String) (choice : Nat) :
    String :=
  match uaFile, fakeUA with
  | _, some ua => ua
  | _, none => listChoice builtin_user_agents choice

/-! ### Helper lemmas -/

theorem get_game_code_eq (ts r : Nat) :
    get_game_code ts r = some (natToDecimal ts ++ "_" ++ uuidHex8 r) := by
  unfold get_game_code get_game_id
  simp only
  rw [if_neg (get_game_id_ne_empty ts r)]

theorem randint_mem {lo hi : Int} (h : lo ≤ hi) (r : Nat) :
    ∃ s, randint lo hi r = some s ∧ lo ≤ s ∧ s ≤ hi := by
  refine ⟨lo + (r % (hi - lo + 1).toNat : Nat), ?_, ?_, ?_⟩
  · rw [randint, if_neg (not_lt.mpr h)]
  · omega
  · have hk : 0 < (hi - lo + 1).toNat := by omega
    have hm : r % (hi - lo + 1).toNat < (hi - lo + 1).toNat := Nat.mod_lt _ hk
    omega

/-- Shape of one round: the check call always happens (with the generated code),
and the record call happens exactly when the check succeeded and `randint` did
not raise. -/
theorem play_single_game_eq (cfg : Config) (v : Variant) (env : RoundEnv) (i : Nat) :
    play_single_game cfg v env i =
      (let gameCode := natToDecimal env.ts ++ "_" ++ uuidHex8 env.uuidRand
      if check_game_code env.checkResp then
        match randint (effMinScore cfg v) (effMaxScore cfg v) env.scoreRand with
        | none => (false, [.roundStart i, .checkCall gameCode])
        | some score =>
          (record_game_score env.recordResp,
            [.roundStart i, .checkCall gameCode,
              .recordCall score (record_game_score env.recordResp)])
      else (false, [.roundStart i, .checkCall gameCode])) := by
  unfold play_single_game
  rw [get_game_code_eq]

theorem play_single_game_check_fail (cfg : Config) (v : Variant) (env : RoundEnv) (i : Nat)
    (h : check_game_code env.checkResp = false) :
    play_single_game cfg v env i =
      (false, [.roundStart i,
        .checkCall (natToDecimal env.ts ++ "_" ++ uuidHex8 env.uuidRand)]) := by
  rw [play_single_game_eq]
  simp [h]

/-! ### Claim theorems -/

/-- Claim C1: for every configured score range `[min_score, max_score]` with
`min_score ≤ max_score`, every score that `play_single_game` passes to
`record_game_score` lies within `[min_score, max_score]` inclusive, for every
account (the environment) and every round. -/
theorem claim1_recorded_score_in_range (cfg : Config) (v : Variant) (env : RoundEnv)
    (game_round : Nat) (h : effMinScore cfg v ≤ effMaxScore cfg v) :
    ∀ s ok, Event.recordCall s ok ∈ (play_single_game cfg v env game_round).2 →
      effMinScore cfg v ≤ s ∧ s ≤ effMaxScore cfg v := by
  intro s ok hmem
  rw [play_single_game_eq] at hmem
  obtain ⟨sc, hsc, hlo, hhi⟩ := randint_mem h env.scoreRand
  by_cases hc : check_game_code env.checkResp = true
  · simp only [hc, if_true, hsc] at hmem
    simp at hmem
    obtain ⟨rfl, -⟩ := hmem
    exact ⟨hlo, hhi⟩
  · rw [Bool.not_eq_true] at hc
    simp [hc] at hmem

/-- Witness for C1: with an empty config and the `bot1.py` defaults `[55, 65]`,
the round with check response 200 and score randomness 2 records 57 ∈ [55, 65]. -/
theorem claim1_witness :
    effMinScore {} bot1Variant ≤ effMaxScore {} bot1Variant ∧
      effMinScore {} bot1Variant ≤ 57 ∧ (57 : Int) ≤ effMaxScore {} bot1Variant :=
  ⟨by decide,
    claim1_recorded_score_in_range {} bot1Variant
      ⟨0, 0, .status 200, .status 200, 2⟩ 1 (by decide) 57 true (by decide)⟩

/-- Claim C2: if `check_game_code` returns failure (HTTP status other than 200,
or any exception), then `play_single_game` never calls `record_game_score` in
that round. -/
theorem claim2_no_record_after_failed_check (cfg : Config) (v : Variant) (env : RoundEnv)
    (game_round : Nat) (h : check_game_code env.checkResp = false) :
    ∀ s ok, Event.recordCall s ok ∉ (play_single_game cfg v env game_round).2 := by
  intro s ok hmem
  rw [play_single_game_check_fail cfg v env game_round h] at hmem
  simp at hmem

/-- Witness for C2: a 404 on the check-endpoint yields no record call. -/
theorem claim2_witness :
    Event.recordCall 60 true ∉
      (play_single_game {} bot1Variant ⟨0, 0, .status 404, .status 200, 0⟩ 1).2 :=
  claim2_no_record_after_failed_check {} bot1Variant
    ⟨0, 0, .status 404, .status 200, 0⟩ 1 rfl 60 true

/-- Rounds attempted in a trace (the start-of-round log lines). -/
def roundStarts (evs : List Event) : List Nat :=
  evs.filterMap fun e => match e with | .roundStart i => some i | _ => none

/-- Claim C3: with `games_per_session = 3` and a failing first check-call,
`play_game` records exactly 0 successful rounds, only round 1 is ever started
(rounds 2 and 3 are never attempted), no score is recorded, and the account is
reported as failed. -/
theorem claim3_first_check_fail_aborts (cfg : Config) (v : Variant) (envs : Nat → RoundEnv)
    (h3 : effGames cfg v = 3) (hfail : check_game_code (envs 1).checkResp = false) :
    (play_game cfg v envs).success = false ∧
    (play_game cfg v envs).success_count = 0 ∧
    roundStarts (play_game cfg v envs).trace = [1] ∧
    ∀ s ok, Event.recordCall s ok ∉ (play_game cfg v envs).trace := by
  have hrange : List.range' 1 3 = [1, 2, 3] := rfl
  have hr : play_rounds cfg v envs 3 [1, 2, 3] =
      (0, [.roundStart 1,
        .checkCall (natToDecimal (envs 1).ts ++ "_" ++ uuidHex8 (envs 1).uuidRand)]) := by
    rw [play_rounds, play_single_game_check_fail cfg v (envs 1) 1 hfail]
    simp
  simp only [play_game]
  rw [h3, hrange, hr]
  refine ⟨rfl, rfl, rfl, ?_⟩
  intro s ok hmem
  simp at hmem

/-- Witness for C3: the `bot/bot1.py` defaults give 3 rounds per session, and a
500 on the first check-call yields a failed account with zero successes. -/
theorem claim3_witness :
    (play_game {} botDirVariant (fun _ => ⟨0, 0, .status 500, .status 200, 0⟩)).success
        = false ∧
    (play_game {} botDirVariant
        (fun _ => ⟨0, 0, .status 500, .status 200, 0⟩)).success_count = 0 ∧
    roundStarts (play_game {} botDirVariant
        (fun _ => ⟨0, 0, .status 500, .status 200, 0⟩)).trace = [1] := by
  have h := claim3_first_check_fail_aborts {} botDirVariant
    (fun _ => ⟨0, 0, .status 500, .status 200, 0⟩) (by decide) rfl
  exact ⟨h.1, h.2.1, h.2.2.1⟩

theorem play_single_game_true_has_record (cfg : Config) (v : Variant) (env : RoundEnv)
    (i : Nat) (h : (play_single_game cfg v env i).1 = true) :
    ∃ s, Event.recordCall s true ∈ (play_single_game cfg v env i).2 := by
  rw [play_single_game_eq] at h ⊢
  by_cases hc : check_game_code env.checkResp = true
  · simp only [hc, if_true] at h ⊢
    cases hsc : randint (effMinScore cfg v) (effMaxScore cfg v) env.scoreRand with
    | none => rw [hsc] at h; exact absurd h (by simp)
    | some sc =>
      rw [hsc] at h
      simp at h
      exact ⟨sc, by simp [h]⟩
  · rw [Bool.not_eq_true] at hc
    simp [hc] at h

theorem play_single_game_false_no_record (cfg : Config) (v : Variant) (env : RoundEnv)
    (i : Nat) (h : (play_single_game cfg v env i).1 = false) :
    ∀ s, Event.recordCall s true ∉ (play_single_game cfg v env i).2 := by
  intro s hmem
  rw [play_single_game_eq] at h hmem
  by_cases hc : check_game_code env.checkResp = true
  · simp only [hc, if_true] at h hmem
    cases hsc : randint (effMinScore cfg v) (effMaxScore cfg v) env.scoreRand with
    | none => rw [hsc] at hmem; simp at hmem
    | some sc =>
      rw [hsc] at h hmem
      simp_all
  · rw [Bool.not_eq_true] at hc
    simp [hc] at hmem

theorem play_rounds_pos_iff (cfg : Config) (v : Variant) (envs : Nat → RoundEnv) (n : Nat) :
    ∀ l : List Nat, 0 < (play_rounds cfg v envs n l).1 ↔
      ∃ s, Event.recordCall s true ∈ (play_rounds cfg v envs n l).2 := by
  intro l
  cases l with
  | nil => simp [play_rounds]
  | cons i rest =>
    by_cases hok : (play_single_game cfg v (envs i) i).1 = true
    · obtain ⟨s, hs⟩ := play_single_game_true_has_record cfg v (envs i) i hok
      simp only [play_rounds, hok, if_true]
      constructor
      · intro _
        refine ⟨s, ?_⟩
        by_cases hin : i < n <;> simp [hin, hs]
      · intro _
        omega
    · have hno := play_single_game_false_no_record cfg v (envs i) i
        (by rwa [Bool.not_eq_true] at hok)
      simp only [play_rounds]
      rw [if_neg hok]
      constructor
      · intro h0
        simp at h0
      · rintro ⟨s, hs⟩
        exact absurd hs (hno s)

/-- Claim C4: `play_game` reports success iff `success_count > 0`, i.e. iff at
least one round successfully recorded a score (a record-call that returned
200); with zero successful rounds it reports failure. -/
theorem claim4_success_iff_recorded (cfg : Config) (v : Variant) (envs : Nat → RoundEnv) :
    ((play_game cfg v envs).success = true ↔ 0 < (play_game cfg v envs).success_count) ∧
    ((play_game cfg v envs).success = true ↔
      ∃ s, Event.recordCall s true ∈ (play_game cfg v envs).trace) := by
  have h := play_rounds_pos_iff cfg v envs (effGames cfg v) (List.range' 1 (effGames cfg v))
  simp only [play_game]
  constructor
  · simp
  · simp only [decide_eq_true_eq]
    exact h

/-- Claim C5: every game code produced by `get_game_id` / `get_game_code` is
`<decimal digits>_<exactly 8 lowercase hex characters>`, where the digits are
the millisecond timestamp, and generation never fails (never returns `None`). -/
theorem claim5_game_code_format (ts r : Nat) :
    get_game_id ts r = some (natToDecimal ts ++ "_" ++ uuidHex8 r) ∧
    get_game_code ts r = some (natToDecimal ts ++ "_" ++ uuidHex8 r) ∧
    (natToDecimal ts).toList.all Char.isDigit = true ∧
    (uuidHex8 r).length = 8 ∧
    (uuidHex8 r).toList.all isHexLower = true :=
  ⟨rfl, get_game_code_eq ts r,
    List.all_eq_true.mpr (natToDecimal_digits ts),
    uuidHex8_length r,
    List.all_eq_true.mpr (uuidHex8_hex r)⟩

/-- Claim C6, against the code as written: when the config file is missing or
malformed, the constructor's `except` handler dereferences `self.logger` before
`setup_logging` has created it, so startup dies from an uncaught
`AttributeError` — fatal as the claim says, but `sys.exit(1)` is never
reached. -/
theorem claim6_config_failure_fatal_but_not_sysexit :
    init_load_config .missing = .uncaught "AttributeError" ∧
    init_load_config .malformed = .uncaught "AttributeError" ∧
    init_load_config .missing ≠ .sysExit 1 ∧
    init_load_config .malformed ≠ .sysExit 1 ∧
    (load_config true .missing = .sysExit 1 ∧ load_config true .malformed = .sysExit 1) := by
  refine ⟨rfl, rfl, ?_, ?_, rfl, rfl⟩ <;> intro h <;> exact PyOutcome.noConfusion h

/-- `Event.sleepUniform` recognizer. -/
def isSleepUniform : Event → Bool
  | .sleepUniform _ _ => true
  | _ => false

theorem play_single_game_no_sleepUniform (cfg : Config) (v : Variant) (env : RoundEnv)
    (i : Nat) : (play_single_game cfg v env i).2.filter isSleepUniform = [] := by
  rw [play_single_game_eq]
  by_cases hc : check_game_code env.checkResp = true
  · simp only [hc, if_true]
    cases randint (effMinScore cfg v) (effMaxScore cfg v) env.scoreRand with
    | none => simp [isSleepUniform]
    | some sc => simp [isSleepUniform]
  · rw [Bool.not_eq_true] at hc
    simp [hc, isSleepUniform]

theorem play_rounds_no_sleepUniform (cfg : Config) (v : Variant) (envs : Nat → RoundEnv)
    (n : Nat) : ∀ l : List Nat,
    (play_rounds cfg v envs n l).2.filter isSleepUniform = [] := by
  intro l
  induction l with
  | nil => simp [play_rounds]
  | cons i rest ih =>
    by_cases hok : (play_single_game cfg v (envs i) i).1 = true
    · simp only [play_rounds, hok, if_true]
      by_cases hin : i < n <;>
        simp [hin, List.filter_append, play_single_game_no_sleepUniform, ih, isSleepUniform]
    · simp only [play_rounds]
      rw [if_neg hok]
      exact play_single_game_no_sleepUniform cfg v (envs i) i

theorem play_accounts_loop_filter (cfg : Config) (v : Variant) (envs : Nat → Nat → RoundEnv) :
    ∀ (accounts : List Account) (k : Nat),
    (play_accounts_loop cfg v envs accounts k).filter isSleepUniform =
      List.replicate accounts.length (Event.sleepUniform v.sleep_lo v.sleep_hi) := by
  intro accounts
  induction accounts with
  | nil => intro k; simp [play_accounts_loop]
  | cons a rest ih =>
    intro k
    have hg : (play_game cfg v (envs k)).trace.filter isSleepUniform = [] := by
      simp only [play_game]
      exact play_rounds_no_sleepUniform cfg v (envs k) _ _
    simp [play_accounts_loop, List.filter_append, hg, ih, isSleepUniform, List.replicate_succ]

/-- Counterexample to C7 as stated: in `src/bot1.py` the inter-account sleep is
`random.uniform(1, 2)`, not `uniform(1, 3)` — the trace of a one-account sweep
contains a `[1, 2]`-uniform sleep and no `[1, 3]`-uniform sleep. -/
theorem claim7_counterexample :
    Event.sleepUniform 1 2 ∈ play_all_accounts {} bot1Variant
        [⟨"a", "tok", "", ""⟩] (fun _ _ => ⟨0, 0, .status 500, .status 500, 0⟩) ∧
    Event.sleepUniform 1 3 ∉ play_all_accounts {} bot1Variant
        [⟨"a", "tok", "", ""⟩] (fun _ _ => ⟨0, 0, .status 500, .status 500, 0⟩) := by
  decide

/-- Claim C7 as amended: after processing each account (including the last) the
loop sleeps a duration drawn uniformly from `[1, 3]` seconds in `bot/bot1.py`
but from `[1, 2]` seconds in `bot1.py`; in both files there is exactly one such
sleep per account. -/
theorem claim7_amended_sleep_bounds (cfg : Config) (accounts : List Account)
    (envs : Nat → Nat → RoundEnv) :
    (play_all_accounts cfg botDirVariant accounts envs).filter isSleepUniform =
      List.replicate accounts.length (Event.sleepUniform 1 3) ∧
    (play_all_accounts cfg bot1Variant accounts envs).filter isSleepUniform =
      List.replicate accounts.length (Event.sleepUniform 1 2) := by
  constructor <;>
  · unfold play_all_accounts
    cases accounts with
    | nil => simp [isSleepUniform]
    | cons a rest => simpa using play_accounts_loop_filter cfg _ envs (a :: rest) 0

theorem listChoice_mem {l : List String} (h : l ≠ []) (r : Nat) : listChoice l r ∈ l := by
  unfold listChoice
  have hl : 0 < l.length := List.length_pos.mpr h
  have hlt : r % l.length < l.length := Nat.mod_lt _ hl
  rw [List.getD_eq_getElem l "" hlt]
  exact List.getElem_mem hlt

/-- Counterexample to C8 as stated: `src/bot/bot1.py`'s `get_random_user_agent`
never consults the `user_agents.txt` pool — with the pool file present and
nonempty it still returns the `fake_useragent` library's value, which need not
belong to the pool. -/
theorem claim8_counterexample :
    botDir_get_random_user_agent (.present ["OnlyPoolUA"]) (some "LibraryUA") 0
        = "LibraryUA" ∧
    "LibraryUA" ∉ ["OnlyPoolUA"] := by
  decide

/-- Claim C8 as amended: in `bot1.py`, `get_random_user_agent` picks from the
`user_agents.txt` pool when the file exists and its stripped nonblank lines are
nonempty, and otherwise returns the `fake_useragent` library value, never
raising; in `bot/bot1.py` it always returns the library value and falls back to
the hardcoded built-in list only when the library itself raises — the pool file
is never read. -/
theorem claim8_amended_user_agent_fallback :
    (∀ (lines : List String) (choice : Nat) (fakeUA : String),
      ¬((lines.map pyStrip).filter (fun s => !s.isEmpty)).isEmpty = true →
        bot1_get_random_user_agent (.present lines) choice fakeUA ∈
          (lines.map pyStrip).filter (fun s => !s.isEmpty)) ∧
    (∀ (choice : Nat) (fakeUA : String),
      bot1_get_random_user_agent .absent choice fakeUA = fakeUA) ∧
    (∀ (lines : List String) (choice : Nat) (fakeUA : String),
      ((lines.map pyStrip).filter (fun s => !s.isEmpty)).isEmpty = true →
        bot1_get_random_user_agent (.present lines) choice fakeUA = fakeUA) ∧
    (∀ (uaFile : UAFile) (fakeUA : String) (choice : Nat),
      botDir_get_random_user_agent uaFile (some fakeUA) choice = fakeUA) ∧
    (∀ (uaFile : UAFile) (choice : Nat),
      botDir_get_random_user_agent uaFile none choice ∈ builtin_user_agents) := by
  refine ⟨?_, fun _ _ => rfl, ?_, fun uaFile _ _ => rfl, fun uaFile choice => ?_⟩
  · intro lines choice fakeUA hne
    unfold bot1_get_random_user_agent
    simp only
    rw [if_neg hne]
    exact listChoice_mem (fun he => hne (by rw [he]; rfl)) choice
  · intro lines choice fakeUA hemp
    unfold bot1_get_random_user_agent
    simp only
    rw [if_pos hemp]
  · exact listChoice_mem (by decide) choice

/-- Witness for the amended C8. -/
theorem claim8_amended_witness :
    bot1_get_random_user_agent (.present ["A"]) 0 "F" ∈
      (["A"].map pyStrip).filter (fun s => !s.isEmpty) ∧
    bot1_get_random_user_agent .absent 0 "F" = "F" ∧
    bot1_get_random_user_agent (.present [""]) 0 "F" = "F" ∧
    botDir_get_random_user_agent .absent (some "F") 0 = "F" ∧
    botDir_get_random_user_agent .absent none 0 ∈ builtin_user_agents :=
  ⟨claim8_amended_user_agent_fallback.1 ["A"] 0 "F" (by decide),
    claim8_amended_user_agent_fallback.2.1 0 "F",
    claim8_amended_user_agent_fallback.2.2.1 [""] 0 "F" (by decide),
    claim8_amended_user_agent_fallback.2.2.2.1 .absent "F" 0,
    claim8_amended_user_agent_fallback.2.2.2.2 .absent 0⟩

/-- Claim C9: a malformed accounts file (invalid JSON) makes `load_accounts`
return the empty list, and the subsequent sweep does not crash — it logs the
no-accounts warning and returns without any network call. -/
theorem claim9_malformed_accounts_graceful (cfg : Config) (v : Variant)
    (envs : Nat → Nat → RoundEnv) :
    load_accounts .malformed = [] ∧
    play_all_accounts cfg v (load_accounts .malformed) envs = [Event.warnNoAccounts] :=
  ⟨rfl, rfl⟩

/-- Claim C10: if any enabled account object lacks `name` or `session_token`,
the `KeyError` is caught at the file level and `load_accounts` returns `[]`,
discarding every account including valid ones parsed earlier. -/
theorem claim10_keyerror_discards_all (raws : List RawAccount)
    (h : ∃ a ∈ raws, a.enabled.getD true = true ∧
      (a.name = none ∨ a.session_token = none)) :
    load_accounts (.parsed (some raws)) = [] := by
  have herr : parse_accounts raws = .error () := by
    induction raws with
    | nil => simp at h
    | cons a rest ih =>
      obtain ⟨x, hx, hen, hbad⟩ := h
      rcases List.mem_cons.mp hx with rfl | hx'
      · have ha : parse_account x = .error () := by
          unfold parse_account
          rw [if_pos hen]
          rcases hbad with hn | hs
          · rw [hn]
          · cases hname : x.name with
            | none => rfl
            | some n => rw [hs]
        simp only [parse_accounts]
        rw [ha]
        rfl
      · have hrest := ih ⟨x, hx', hen, hbad⟩
        cases hpa : parse_account a with
        | error e =>
          cases e
          simp only [parse_accounts]
          rw [hpa]
          rfl
        | ok w =>
          simp only [parse_accounts]
          rw [hpa, hrest]
          rfl
  simp [load_accounts, herr]

/-- Witness for C10: a valid enabled account followed by one missing
`session_token` yields an empty account list. -/
theorem claim10_witness :
    load_accounts (.parsed (some
      [{ name := some "alice", session_token := some "tok", enabled := some true },
       { name := some "bob" }])) = [] :=
  claim10_keyerror_discards_all _ (by decide)

end PiggyBot
